import Mathlib

/-!
Verification of the supplier-risk evaluation pipeline.

This development shallowly embeds the Python pipeline (the LangGraph
orchestrator in workflows/evaluation_workflow.py, the five stage agents in
agents/, and the deterministic MCP tool functions in mcp_tools/) and proves
or refutes the behavioural claims of the specification against it.

Modelling conventions:
- Python dicts whose shape varies dynamically are embedded as `PyVal`
  (a JSON-like value type with dicts as association lists).
- Calls out to intelligence providers and LLM reasoning calls are modelled
  as oracle arguments of type `Except String α`: `Except.error e` models the
  call raising exception `e` (or, for LLM calls, the subsequent JSON parse
  raising), `Except.ok v` a successful, parsed result.
- Python float arithmetic is modelled over `ℚ`.
- Machine strings are Lean `String`; `str.lower()`, `str.upper()` and
  `str.strip()` are the character-list functions `pyLower`, `pyUpper` and
  `pyStrip` below (the repository only feeds plain ASCII names into them).
-/

namespace SupplierRisk

/-- JSON-like values, embedding the Python dict/list/str/bool/float payloads
that flow between the pipeline stages. Dicts are association lists in
insertion order, as in CPython. -/
inductive PyVal where
  | str (s : String)
  | bool (b : Bool)
  | rat (q : ℚ)
  | none
  | list (xs : List PyVal)
  | dict (fields : List (String × PyVal))

/-- Python `d.get(k)`/`d[k]` on an embedded dict (`Option.none` when the key
is absent or the value is not a dict). -/
def pyLookup (v : PyVal) (k : String) : Option PyVal :=
  match v with
  | .dict fields => fields.lookup k
  | _ => Option.none

/-- Python `d[k] = w` on an association-list dict: replaces the first binding
of `k`, or appends a new binding. -/
def setAssoc : List (String × PyVal) → String → PyVal → List (String × PyVal)
  | [], k, w => [(k, w)]
  | (k₀, w₀) :: fs, k, w =>
      if k₀ == k then (k, w) :: fs else (k₀, w₀) :: setAssoc fs k w

/-- Python `d[k] = w` lifted to `PyVal` (identity on non-dicts, which never
occurs at the use sites). -/
def dictSet (v : PyVal) (k : String) (w : PyVal) : PyVal :=
  match v with
  | .dict fs => .dict (setAssoc fs k w)
  | other => other

/-- Does the character list start with the given pattern? (Python string
prefix test, used to build the substring test.) -/
def charsStartWith : List Char → List Char → Bool
  | [], _ => true
  | _ :: _, [] => false
  | p :: ps, c :: cs => p == c && charsStartWith ps cs

/-- Does the character list contain the pattern as a contiguous
subsequence? -/
def charsContain : List Char → List Char → Bool
  | [], ps => charsStartWith ps []
  | c :: cs, ps => charsStartWith ps (c :: cs) || charsContain cs ps

/-- Python `pat in s` substring containment on strings. -/
def strContains (s pat : String) : Bool :=
  charsContain s.toList pat.toList

/-- Python `s.lower()` (the repository only feeds ASCII names into it);
defined over the character list so that it evaluates by kernel
reduction. -/
def pyLower (s : String) : String := ⟨s.data.map Char.toLower⟩

/-- Python `s.upper()` on the ASCII inputs of this repository. -/
def pyUpper (s : String) : String := ⟨s.data.map Char.toUpper⟩

/-- Python `s.strip()`: drop leading and trailing whitespace. -/
def pyStrip (s : String) : String :=
  ⟨((s.data.dropWhile Char.isWhitespace).reverse.dropWhile Char.isWhitespace).reverse⟩

/-- Python `if source_info not in sources: sources.append(source_info)`
accumulation: deduplicate keeping first occurrences. -/
def dedupKeepFirst {α : Type} [DecidableEq α] (l : List α) : List α :=
  l.foldl (fun acc x => if x ∈ acc then acc else acc ++ [x]) []

/-! ## mcp_tools/news_tools.py -/

/-- Result dict of `analyze_sentiment` (news_tools.py). -/
structure SentimentResult where
  sentiment : String
  confidence : ℚ
  reasoning : String
  positive_signals : ℕ
  negative_signals : ℕ
deriving DecidableEq

/-- The positive keyword set of `analyze_sentiment`. -/
def positiveKeywords : List String :=
  ["award", "win", "success", "growth", "profit", "expansion",
   "innovation", "achievement", "excellence", "breakthrough",
   "record", "leading", "pioneer", "sustainable", "approved",
   "partnership", "collaboration", "contract", "milestone"]

/-- The negative keyword set of `analyze_sentiment`. -/
def negativeKeywords : List String :=
  ["fraud", "scandal", "lawsuit", "fine", "penalty", "investigation",
   "violation", "bankrupt", "loss", "decline", "failure", "breach",
   "controversy", "criticized", "accused", "suspended", "illegal",
   "complaint", "dispute", "problem", "issue", "concern", "risk"]

/-- Embedding of `analyze_sentiment(article_text)` (news_tools.py, lines
182-225): counts positive- vs negative-keyword substring hits in the
lowercased text; the larger count wins with confidence
`min(0.6 + margin * 0.1, 0.95)`, a tie gives neutral with confidence 0.5.
Its `try` body is exception-free, so the fallback branch is not modelled. -/
def analyzeSentiment (article_text : String) : SentimentResult :=
  let text_lower := pyLower article_text
  let positive_count := (positiveKeywords.filter (fun k => strContains text_lower k)).length
  let negative_count := (negativeKeywords.filter (fun k => strContains text_lower k)).length
  if positive_count > negative_count then
    { sentiment := "positive"
      confidence := min (6/10 + (positive_count - negative_count : ℚ) * (1/10)) (95/100)
      reasoning := s!"Contains {positive_count} positive keywords, {negative_count} negative keywords"
      positive_signals := positive_count
      negative_signals := negative_count }
  else if negative_count > positive_count then
    { sentiment := "negative"
      confidence := min (6/10 + (negative_count - positive_count : ℚ) * (1/10)) (95/100)
      reasoning := s!"Contains {negative_count} negative keywords, {positive_count} positive keywords"
      positive_signals := positive_count
      negative_signals := negative_count }
  else
    { sentiment := "neutral"
      confidence := 5/10
      reasoning := s!"Balanced sentiment: {positive_count} positive, {negative_count} negative keywords"
      positive_signals := positive_count
      negative_signals := negative_count }

/-! ## mcp_tools/sanctions_data_loader.py -/

/-- Result dict of `check_name_against_sanctions` (sanctions_data_loader.py,
lines 229-269). `partial_entities`/`partial_individuals` are the stored
`partial_matches` sub-dict (capped to the top 5 entries, as in the source). -/
structure SanctionsNameCheck where
  searched_name : String
  exact_match : Bool
  entity_exact_match : Bool
  individual_exact_match : Bool
  partial_entities : List String
  partial_individuals : List String
  risk_level : String
deriving DecidableEq

/-- Embedding of `check_name_against_sanctions(name, sanctions_data)`:
lowercase and strip the query, test exact list membership in the loaded
entity and individual lists, collect substring matches in either direction,
and classify `blocked`/`warning`/`clear`. The `risk_level` is computed (as
in the source) from the uncapped partial-match lists; only the stored
`partial_matches` are capped at 5. The `threshold` parameter is unused in
the source and omitted. -/
def checkNameAgainstSanctions (name : String) (entities individuals : List String) :
    SanctionsNameCheck :=
  let name_lower := pyStrip (pyLower name)
  let entity_match := name_lower ∈ entities
  let individual_match := name_lower ∈ individuals
  let entity_partial := entities.filter (fun e => strContains e name_lower || strContains name_lower e)
  let individual_partial := individuals.filter (fun i => strContains i name_lower || strContains name_lower i)
  { searched_name := name
    exact_match := decide (entity_match ∨ individual_match)
    entity_exact_match := decide entity_match
    individual_exact_match := decide individual_match
    partial_entities := entity_partial.take 5
    partial_individuals := individual_partial.take 5
    risk_level :=
      if entity_match ∨ individual_match then "blocked"
      else if entity_partial ≠ [] ∨ individual_partial ≠ [] then "warning"
      else "clear" }

/-! ## mcp_tools/registry_tools.py -/

/-- The fields of a parsed UK Companies House API success response, after the
`data.get(..., 'Unknown')` defaults of `check_uk_companies_house` have been
applied (registry_tools.py, lines 122-149). The nested address/accounts
payloads are carried opaquely. -/
structure CHCompany where
  company_name : String
  company_number : Option String
  company_status : String
  date_of_creation : String
  company_type : String
  registered_address : List (String × PyVal)
  accounts_next_due : String
  accounts_overdue : Bool
  sic_codes : List PyVal

/-- Embedding of the success path of `check_uk_companies_house`: the result
dict it builds from a 200 API response. Note the status key is named
`company_status`; there is no `status` key. -/
def checkUkCompaniesHouse (registration_number : String) (data : CHCompany) :
    List (String × PyVal) :=
  [("success", .bool true),
   ("company_name", .str data.company_name),
   ("company_number", .str (data.company_number.getD registration_number)),
   ("company_status", .str data.company_status),
   ("date_of_creation", .str data.date_of_creation),
   ("company_type", .str data.company_type),
   ("registered_address", .dict data.registered_address),
   ("accounts", .dict [("next_due", .str data.accounts_next_due),
                       ("overdue", .bool data.accounts_overdue)]),
   ("sic_codes", .list data.sic_codes)]

/-! ## agents/external_agent.py -/

/-- Embedding of `ExternalAgent._determine_overall_sentiment(positive,
negative, neutral)` (external_agent.py, lines 257-280). -/
def determineOverallSentiment (positive negative neutral : ℕ) : String :=
  let total := positive + negative + neutral
  if total = 0 then "no_coverage"
  else if negative > positive + neutral then "mostly_negative"
  else if positive > negative + neutral then "mostly_positive"
  else if negative > 0 ∧ positive > 0 then "mixed"
  else "neutral"

/-- A news article as consumed by the sentiment loop of
`gather_intelligence` (only the `title` and `description` keys are read
there; both are read with string defaults). -/
structure Article where
  title : String
  description : String
deriving DecidableEq

/-- Python `==` between the dict returned by `analyze_sentiment` and a plain
string: a dict never compares equal to a str, so this is constantly
`false`. This models external_agent.py lines 148-160, where `sentiment`
holds the whole result dict but is compared against `"positive"` and
`"negative"`. -/
def dictEqStr (_ : SentimentResult) (_ : String) : Bool := false

/-- The per-article sentiment tally of `gather_intelligence`
(external_agent.py, lines 147-160): for each article, analyze the
description, then branch on `sentiment == "positive"` /
`sentiment == "negative"` (dict-vs-str comparisons), counting into
(positive, negative, neutral) and appending a `Negative news:` risk signal
in the negative branch. Returns the three counters and the risk signals
appended by the loop. -/
def newsTally (articles : List Article) : (ℕ × ℕ × ℕ) × List String :=
  articles.foldl
    (fun acc article =>
      let counts := acc.1
      let signals := acc.2
      let sentiment := analyzeSentiment article.description
      if dictEqStr sentiment "positive" then
        ((counts.1 + 1, counts.2.1, counts.2.2), signals)
      else if dictEqStr sentiment "negative" then
        ((counts.1, counts.2.1 + 1, counts.2.2), signals ++ [s!"Negative news: {article.title}"])
      else
        ((counts.1, counts.2.1, counts.2.2 + 1), signals))
    ((0, 0, 0), [])

/-- Python `x != "Active"` where `x` is the result of `.get("status")`: a
missing key gives `None`, and `None != "Active"` is `True`; a present
non-string value is also unequal to the string. -/
def pyNeStr (v : Option PyVal) (t : String) : Bool :=
  match v with
  | some (.str s) => s != t
  | _ => true

/-- Python `d.get(k, default)` rendered as a string for the f-string in the
risk-signal message (at the use site the key is absent or a string). -/
def pyStrGetD (fields : List (String × PyVal)) (k dflt : String) : String :=
  match fields.lookup k with
  | some (.str s) => s
  | _ => dflt

/-- The registry risk-signal logic of `gather_intelligence`
(external_agent.py, lines 110-118) applied to a successful UK Companies
House lookup: when the country is `UK` (case-insensitively) and a
registration number is given, the agent reads `registry_result.get("status")`
and appends `Company status: ...` to the risk signals whenever that value
differs from `"Active"`. -/
def registryStepSignals (country : String) (registration_number : Option String)
    (registry_result : List (String × PyVal)) (risk_signals : List String) : List String :=
  if pyUpper country = "UK" ∧ registration_number.getD "" ≠ "" then
    if pyNeStr (registry_result.lookup "status") "Active" then
      risk_signals ++ ["Company status: " ++ pyStrGetD registry_result "status" "Unknown"]
    else risk_signals
  else risk_signals

/-! ## agents/planner_agent.py -/

/-- The fixed fallback plan of `PlannerAgent.create_evaluation_plan`
(planner_agent.py, lines 141-152), substituted when the reasoning call or
the JSON parse of its output raises. -/
def fallbackPlan (supplier_name supplier_country : String) : PyVal :=
  .dict [("tasks", .list
            ([s!"Verify {supplier_name} company registration in {supplier_country}",
              "Extract and validate key information from submitted documents",
              "Check compliance with export regulations and licenses",
              "Search for recent news articles and media coverage",
              "Check international sanctions and watchlists",
              "Assess financial health from available documents",
              "Identify any red flags or inconsistencies"].map PyVal.str)),
         ("reasoning", .str "Generic evaluation plan (API call failed)")]

/-- Embedding of `PlannerAgent.create_evaluation_plan` (planner_agent.py,
lines 113-155). The reasoning call is the oracle `llm`: `Option.none` models
the guarded region failing (provider exception, or `json.loads` raising on
unusable output), `some plan` a successfully parsed JSON object. On failure
the fixed generic fallback plan is returned. -/
def createEvaluationPlan (llm : Option PyVal) (supplier_name supplier_country : String) : PyVal :=
  match llm with
  | some plan => plan
  | Option.none => fallbackPlan supplier_name supplier_country

/-- The `tasks` list of a plan dict, as read by consumers via
`plan.get("tasks", [])`. -/
def planTasks (plan : PyVal) : List PyVal :=
  match pyLookup plan "tasks" with
  | some (.list l) => l
  | _ => []

/-! ## agents/rag_agent.py -/

/-- One retrieved passage as returned by `search_similar_chunks`
(rag_agent.py, lines 18-61): the text, the metadata fields read downstream,
and the similarity score. -/
structure RagChunk where
  text : String
  document_name : String
  page : String
  score : ℚ
deriving DecidableEq

/-- Result dict of `RAGAgent._generate_answer`. The `errorMsg` component is
the optional `error` key of the failure branch. -/
structure AnswerRecord where
  question : String
  answer : String
  sources : List (String × String × ℚ)
  confidence : ℚ
  retrieved_chunks : ℕ
  errorMsg : Option String
deriving DecidableEq

/-- Embedding of `RAGAgent._generate_answer(question, context, results)`
(rag_agent.py, lines 256-303). The reasoning call is the oracle `llm`
(its answer text on success). On success, sources are deduplicated keeping
first occurrences, and confidence is `min(avg_score * 1.2, 1.0)` where
`avg_score` is the mean similarity score of the retrieved chunks (0 when
the chunk list is empty); the reasoning output itself contributes nothing
to the confidence. On failure an error record with confidence 0 is
returned. -/
def generateAnswer (llm : Except String String) (question : String)
    (results : List RagChunk) : AnswerRecord :=
  match llm with
  | .ok answer_text =>
      let sources := dedupKeepFirst (results.map (fun r => (r.document_name, r.page, r.score)))
      let avg_score : ℚ :=
        if results ≠ [] then ((results.map RagChunk.score).sum) / (results.length : ℚ) else 0
      { question := question
        answer := answer_text
        sources := sources
        confidence := min (avg_score * (12/10)) 1
        retrieved_chunks := results.length
        errorMsg := Option.none }
  | .error e =>
      { question := question
        answer := s!"Error generating answer: {e}"
        sources := []
        confidence := 0
        retrieved_chunks := results.length
        errorMsg := some e }

/-! ## agents/decision_agent.py -/

/-- The structured inputs `make_decision` receives from the workflow; in the
source they are serialized into the user prompt of the reasoning call. -/
structure DecisionInputs where
  supplier_name : String
  evaluation_plan : PyVal
  document_analysis : PyVal
  rag_answers : PyVal
  external_intelligence : PyVal
  business_context : Option String

/-- The fixed safe-default decision dict returned by `make_decision` when
`_generate_decision` raises (decision_agent.py, lines 120-130). -/
def decisionFallback (e : String) : PyVal :=
  .dict [("risk_level", .str "High"),
         ("confidence_score", .rat 0),
         ("reasoning", .str s!"Unable to complete risk assessment due to error: {e}"),
         ("positive_factors", .list []),
         ("negative_factors", .list [.str "Assessment incomplete due to technical error"]),
         ("recommended_actions", .list [.str "Re-evaluate supplier with complete data"]),
         ("decision_summary", .str "Risk assessment failed - manual review required"),
         ("evidence_trail", .dict []),
         ("error", .str e)]

/-- Embedding of `DecisionAgent.make_decision` together with
`_generate_decision` (decision_agent.py, lines 53-130 and 133-296). The
reasoning call is the oracle `llm`, which sees the structured inputs (the
source serializes them into the prompt) and either raises or returns the
parsed JSON decision object. On success the parsed object is returned with
only the metadata keys `evaluated_at` and `supplier_name` added; no
deterministic post-processing of `risk_level` is performed — the red-flag
override policy exists only as prompt text. On any exception the fixed
safe-default High-risk dict is returned. -/
def makeDecision (llm : DecisionInputs → Except String PyVal)
    (inputs : DecisionInputs) (now : String) : PyVal :=
  match llm inputs with
  | .ok decision =>
      dictSet (dictSet decision "evaluated_at" (.str now)) "supplier_name" (.str inputs.supplier_name)
  | .error e => decisionFallback e

/-! ## workflows/evaluation_workflow.py -/

/-- The `EvaluationState` TypedDict threaded through the workflow
(evaluation_workflow.py, lines 26-50). The five agent-output fields hold
dict payloads (`PyVal`); `errors` is the append-only list of stage error
strings. Every key of the TypedDict is a field, so a state value always
carries all keys, exactly as `evaluate_supplier` initializes them. -/
structure EvaluationState where
  supplier_name : String
  supplier_country : String
  business_context : String
  document_paths : List String
  registration_number : String
  owner_names : List String
  evaluation_plan : PyVal
  document_analysis : PyVal
  rag_answers : PyVal
  external_intelligence : PyVal
  final_decision : PyVal
  workflow_status : String
  errors : List String
  started_at : String
  completed_at : String

/-- The outcomes of the five stage-agent invocations of one workflow run,
plus the timestamp taken at decision time. Each call either raises
(`Except.error`) or returns its payload; `document` and `rag` are functions
of the arguments the workflow passes them. -/
structure StageCalls where
  planner : Except String PyVal
  document : List String → Except String PyVal
  rag : List String → Except String PyVal
  external : Except String PyVal
  decision : Except String PyVal
  completedAt : String

/-- Node 1, `_run_planner` (evaluation_workflow.py, lines 107-129): store
the planner output, or log the error and store the
`{"tasks": [], "reasoning": "Failed"}` fallback. -/
def runPlanner (c : Except String PyVal) (s : EvaluationState) : EvaluationState :=
  match c with
  | .ok plan => { s with evaluation_plan := plan }
  | .error e =>
      { s with errors := s.errors ++ ["Planner: " ++ e],
               evaluation_plan := .dict [("tasks", .list []), ("reasoning", .str "Failed")] }

/-- The fixed analysis dict `_run_document_agent` writes when no documents
were provided. -/
def emptyDocsAnalysis : PyVal :=
  .dict [("extracted_data", .dict []),
         ("missing_data", .list [.str "No documents provided"]),
         ("inconsistencies", .list []),
         ("confidence_score", .rat 0)]

/-- Node 2, `_run_document_agent` (evaluation_workflow.py, lines 132-162),
instrumented: the boolean records whether `analyze_documents` (and with it
the document reader and its reasoning call) was invoked. With a non-empty
`document_paths` the agent is called and its result or error recorded; with
an empty one the fixed skip dict is written without any call. -/
def runDocumentAgentT (c : List String → Except String PyVal) (s : EvaluationState) :
    EvaluationState × Bool :=
  if s.document_paths ≠ [] then
    match c s.document_paths with
    | .ok analysis => ({ s with document_analysis := analysis }, true)
    | .error e =>
        ({ s with errors := s.errors ++ ["Document Agent: " ++ e],
                  document_analysis := .dict [("error", .str e)] }, true)
  else
    ({ s with document_analysis := emptyDocsAnalysis }, false)

/-- Node 2 as composed in the graph (the state component of the
instrumented node). -/
def runDocumentAgent (c : List String → Except String PyVal) (s : EvaluationState) :
    EvaluationState :=
  (runDocumentAgentT c s).1

/-- Embedding of `_extract_policy_questions` (evaluation_workflow.py, lines
253-282): scan the plan's `tasks` (string entries) for keyword groups,
collect the corresponding canonical questions, deduplicate and cap at 3.
The source deduplicates via `list(set(questions))`, whose ordering CPython
leaves unspecified; first-occurrence order is the linearization used
here (no claim depends on the order). -/
def extractPolicyQuestions (evaluation_plan : PyVal) : List String :=
  let tasks := (planTasks evaluation_plan).filterMap
    (fun v => match v with | .str t => some t | _ => Option.none)
  let questions := tasks.foldl
    (fun acc task =>
      let task_lower := pyLower task
      let acc :=
        if strContains task_lower "export" || strContains task_lower "license" then
          acc ++ ["What export licenses and permits are required?"]
        else acc
      let acc :=
        if strContains task_lower "compliance" || strContains task_lower "regulation" then
          acc ++ ["What are the key compliance requirements for supplier onboarding?"]
        else acc
      if strContains task_lower "due diligence" || strContains task_lower "oecd" then
        acc ++ ["What are OECD due diligence requirements?"]
      else acc)
    []
  (dedupKeepFirst questions).take 3

/-- Node 3, `_run_rag_agent` (evaluation_workflow.py, lines 165-193):
derive questions from the stored plan; with questions present call the RAG
agent and store questions and answers (or the error dict on an exception);
with none store the empty question/answer dict. -/
def runRagAgent (c : List String → Except String PyVal) (s : EvaluationState) :
    EvaluationState :=
  let questions := extractPolicyQuestions s.evaluation_plan
  if questions ≠ [] then
    match c questions with
    | .ok answers =>
        { s with rag_answers := .dict [("questions", .list (questions.map PyVal.str)),
                                       ("answers", answers)] }
    | .error e =>
        { s with errors := s.errors ++ ["RAG Agent: " ++ e],
                 rag_answers := .dict [("error", .str e)] }
  else
    { s with rag_answers := .dict [("questions", .list []), ("answers", .list [])] }

/-- Node 4, `_run_external_agent` (evaluation_workflow.py, lines 196-219). -/
def runExternalAgent (c : Except String PyVal) (s : EvaluationState) : EvaluationState :=
  match c with
  | .ok intelligence => { s with external_intelligence := intelligence }
  | .error e =>
      { s with errors := s.errors ++ ["External Agent: " ++ e],
               external_intelligence := .dict [("error", .str e)] }

/-- Node 5, `_run_decision_agent` (evaluation_workflow.py, lines 222-250):
on success store the decision, mark the workflow `completed` and stamp
`completed_at`; on an exception log it, store the error dict and mark the
workflow `failed`. -/
def runDecisionAgent (c : Except String PyVal) (now : String) (s : EvaluationState) :
    EvaluationState :=
  match c with
  | .ok decision =>
      { s with final_decision := decision, workflow_status := "completed", completed_at := now }
  | .error e =>
      { s with errors := s.errors ++ ["Decision Agent: " ++ e],
               final_decision := .dict [("error", .str e)],
               workflow_status := "failed" }

/-- One invocation of the compiled graph: the five nodes in the fixed order
Planner → Document → RAG → External → Decision (evaluation_workflow.py,
lines 79-104). -/
def runChain (calls : StageCalls) (s : EvaluationState) : EvaluationState :=
  runDecisionAgent calls.decision calls.completedAt
    (runExternalAgent calls.external
      (runRagAgent calls.rag
        (runDocumentAgent calls.document
          (runPlanner calls.planner s))))

/-- The caller-supplied arguments of `evaluate_supplier` (optional ones as
`Option`, defaulted with `or`-style fallbacks when the initial state is
built). -/
structure SupplierInputs where
  supplier_name : String
  supplier_country : String
  document_paths : Option (List String)
  business_context : Option String
  registration_number : Option String
  owner_names : Option (List String)

/-- The initial state built by `evaluate_supplier` (evaluation_workflow.py,
lines 313-330); `now` is the `started_at` timestamp. -/
def initialState (now : String) (inp : SupplierInputs) : EvaluationState :=
  { supplier_name := inp.supplier_name
    supplier_country := inp.supplier_country
    business_context := inp.business_context.getD ""
    document_paths := inp.document_paths.getD []
    registration_number := inp.registration_number.getD ""
    owner_names := inp.owner_names.getD []
    evaluation_plan := .dict []
    document_analysis := .dict []
    rag_answers := .dict []
    external_intelligence := .dict []
    final_decision := .dict []
    workflow_status := "running"
    errors := []
    started_at := now
    completed_at := "" }

/-- Embedding of `evaluate_supplier` (evaluation_workflow.py, lines
285-346): build the initial state and invoke the graph inside a guard.
`fault` models an unexpected exception escaping `self.workflow.invoke`
(the graph nodes themselves catch stage exceptions): on such a fault the
method returns the initial state marked `failed` with a top-level
`Workflow:` error appended; it never re-raises. -/
def evaluateSupplier (calls : StageCalls) (fault : Option String) (now : String)
    (inp : SupplierInputs) : EvaluationState :=
  match fault with
  | Option.none => runChain calls (initialState now inp)
  | some e =>
      let st := initialState now inp
      { st with workflow_status := "failed", errors := st.errors ++ ["Workflow: " ++ e] }

/-- The returned state rendered as the dict `evaluate_supplier` hands back
to its caller (the TypedDict's key/value pairs). -/
def toDict (s : EvaluationState) : List (String × PyVal) :=
  [("supplier_name", .str s.supplier_name),
   ("supplier_country", .str s.supplier_country),
   ("business_context", .str s.business_context),
   ("document_paths", .list (s.document_paths.map PyVal.str)),
   ("registration_number", .str s.registration_number),
   ("owner_names", .list (s.owner_names.map PyVal.str)),
   ("evaluation_plan", s.evaluation_plan),
   ("document_analysis", s.document_analysis),
   ("rag_answers", s.rag_answers),
   ("external_intelligence", s.external_intelligence),
   ("final_decision", s.final_decision),
   ("workflow_status", .str s.workflow_status),
   ("errors", .list (s.errors.map PyVal.str)),
   ("started_at", .str s.started_at),
   ("completed_at", .str s.completed_at)]

/-- The top-level output fields of the contract: the five stage-owned
fields plus the metadata fields. -/
def topLevelFields : List String :=
  ["evaluation_plan", "document_analysis", "rag_answers", "external_intelligence",
   "final_decision", "workflow_status", "errors", "started_at", "completed_at"]

/-! ## Characterizations of the workflow nodes -/

/-- The error entry a guarded stage invocation contributes to `errors`
(empty on success, the tagged message on an exception). -/
def exceptErrEntry (tag : String) (c : Except String PyVal) : List String :=
  match c with
  | .ok _ => []
  | .error e => [tag ++ e]

/-- The `evaluation_plan` value written by the planner node. -/
def plannedOf (c : Except String PyVal) : PyVal :=
  match c with
  | .ok plan => plan
  | .error _ => .dict [("tasks", .list []), ("reasoning", .str "Failed")]

/-- The `document_analysis` value written by the document node. -/
def docAnalysisOf (c : List String → Except String PyVal) (paths : List String) : PyVal :=
  if paths ≠ [] then
    match c paths with
    | .ok analysis => analysis
    | .error e => .dict [("error", .str e)]
  else emptyDocsAnalysis

/-- The error entry contributed by the document node. -/
def docErrEntry (c : List String → Except String PyVal) (paths : List String) : List String :=
  if paths ≠ [] then exceptErrEntry "Document Agent: " (c paths) else []

/-- The `rag_answers` value written by the RAG node. -/
def ragAnswersOf (c : List String → Except String PyVal) (questions : List String) : PyVal :=
  if questions ≠ [] then
    match c questions with
    | .ok answers => .dict [("questions", .list (questions.map PyVal.str)), ("answers", answers)]
    | .error e => .dict [("error", .str e)]
  else .dict [("questions", .list []), ("answers", .list [])]

/-- The error entry contributed by the RAG node. -/
def ragErrEntry (c : List String → Except String PyVal) (questions : List String) : List String :=
  if questions ≠ [] then exceptErrEntry "RAG Agent: " (c questions) else []

/-- The `external_intelligence` value written by the external node. -/
def externalIntelOf (c : Except String PyVal) : PyVal :=
  match c with
  | .ok intelligence => intelligence
  | .error e => .dict [("error", .str e)]

/-- The `final_decision` value written by the decision node. -/
def decisionFieldOf (c : Except String PyVal) : PyVal :=
  match c with
  | .ok decision => decision
  | .error e => .dict [("error", .str e)]

/-- The `workflow_status` written by the decision node. -/
def decisionStatusOf (c : Except String PyVal) : String :=
  match c with
  | .ok _ => "completed"
  | .error _ => "failed"

/-- The `completed_at` written by the decision node (unchanged on failure). -/
def decisionCompletedAt (c : Except String PyVal) (now old : String) : String :=
  match c with
  | .ok _ => now
  | .error _ => old

theorem runPlanner_eq (c : Except String PyVal) (s : EvaluationState) :
    runPlanner c s =
      { s with errors := s.errors ++ exceptErrEntry "Planner: " c,
               evaluation_plan := plannedOf c } := by
  cases c <;> simp [runPlanner, exceptErrEntry, plannedOf]

theorem runDocumentAgent_eq (c : List String → Except String PyVal) (s : EvaluationState) :
    runDocumentAgent c s =
      { s with errors := s.errors ++ docErrEntry c s.document_paths,
               document_analysis := docAnalysisOf c s.document_paths } := by
  unfold runDocumentAgent runDocumentAgentT docErrEntry docAnalysisOf
  by_cases h : s.document_paths = []
  · simp [h]
  · simp only [h, ne_eq, not_false_iff, if_true]
    cases c s.document_paths <;> simp [exceptErrEntry]

theorem runRagAgent_eq (c : List String → Except String PyVal) (s : EvaluationState) :
    runRagAgent c s =
      { s with errors := s.errors ++ ragErrEntry c (extractPolicyQuestions s.evaluation_plan),
               rag_answers := ragAnswersOf c (extractPolicyQuestions s.evaluation_plan) } := by
  unfold runRagAgent ragErrEntry ragAnswersOf
  by_cases h : extractPolicyQuestions s.evaluation_plan = []
  · simp [h]
  · simp only [h, ne_eq, not_false_iff, if_true]
    cases c (extractPolicyQuestions s.evaluation_plan) <;> simp [exceptErrEntry]

theorem runExternalAgent_eq (c : Except String PyVal) (s : EvaluationState) :
    runExternalAgent c s =
      { s with errors := s.errors ++ exceptErrEntry "External Agent: " c,
               external_intelligence := externalIntelOf c } := by
  cases c <;> simp [runExternalAgent, exceptErrEntry, externalIntelOf]

theorem runDecisionAgent_eq (c : Except String PyVal) (now : String) (s : EvaluationState) :
    runDecisionAgent c now s =
      { s with errors := s.errors ++ exceptErrEntry "Decision Agent: " c,
               final_decision := decisionFieldOf c,
               workflow_status := decisionStatusOf c,
               completed_at := decisionCompletedAt c now s.completed_at } := by
  cases c <;>
    simp [runDecisionAgent, exceptErrEntry, decisionFieldOf, decisionStatusOf, decisionCompletedAt]

theorem runChain_workflow_status (calls : StageCalls) (s : EvaluationState) :
    (runChain calls s).workflow_status = decisionStatusOf calls.decision := by
  simp [runChain, runPlanner_eq, runDocumentAgent_eq, runRagAgent_eq, runExternalAgent_eq,
        runDecisionAgent_eq]

theorem runChain_evaluation_plan (calls : StageCalls) (s : EvaluationState) :
    (runChain calls s).evaluation_plan = plannedOf calls.planner := by
  simp [runChain, runPlanner_eq, runDocumentAgent_eq, runRagAgent_eq, runExternalAgent_eq,
        runDecisionAgent_eq]

theorem runChain_final_decision (calls : StageCalls) (s : EvaluationState) :
    (runChain calls s).final_decision = decisionFieldOf calls.decision := by
  simp [runChain, runPlanner_eq, runDocumentAgent_eq, runRagAgent_eq, runExternalAgent_eq,
        runDecisionAgent_eq]

theorem runChain_errors (calls : StageCalls) (s : EvaluationState) :
    (runChain calls s).errors =
      s.errors
      ++ exceptErrEntry "Planner: " calls.planner
      ++ docErrEntry calls.document s.document_paths
      ++ ragErrEntry calls.rag (extractPolicyQuestions (plannedOf calls.planner))
      ++ exceptErrEntry "External Agent: " calls.external
      ++ exceptErrEntry "Decision Agent: " calls.decision := by
  simp [runChain, runPlanner_eq, runDocumentAgent_eq, runRagAgent_eq, runExternalAgent_eq,
        runDecisionAgent_eq, List.append_assoc]

theorem lookup_toDict (s : EvaluationState) :
    ∀ k ∈ topLevelFields, ∃ v, (toDict s).lookup k = some v := by
  intro k hk
  fin_cases hk <;> exact ⟨_, rfl⟩

/-! ## Claims -/

/-- C1: for every input and every behaviour of the stage calls,
`evaluate_supplier` returns an `EvaluationState` dict carrying all the
top-level output fields (the five stage-owned fields and the metadata
fields); it never re-raises: on an unexpected exception escaping the graph
invocation it returns the initial state with `workflow_status = "failed"`
and a top-level `Workflow:` error appended to `errors`, and otherwise it
returns the result of the five-node graph run. -/
theorem evaluate_supplier_contract (calls : StageCalls) (fault : Option String)
    (now : String) (inp : SupplierInputs) :
    (∀ k ∈ topLevelFields,
        ∃ v, (toDict (evaluateSupplier calls fault now inp)).lookup k = some v) ∧
    (∀ e, fault = some e →
        (evaluateSupplier calls fault now inp).workflow_status = "failed" ∧
        (evaluateSupplier calls fault now inp).errors = ["Workflow: " ++ e]) ∧
    (fault = Option.none →
        evaluateSupplier calls fault now inp = runChain calls (initialState now inp)) := by
  refine ⟨lookup_toDict _, ?_, ?_⟩
  · intro e he
    subst he
    exact ⟨rfl, rfl⟩
  · intro h
    subst h
    rfl

def demoFaultCalls : StageCalls :=
  { planner := .ok (.dict [("tasks", .list []), ("reasoning", .str "ok")])
    document := fun _ => .ok (.dict [])
    rag := fun _ => .ok (.list [])
    external := .ok (.dict [])
    decision := .ok (.dict [])
    completedAt := "2026-10-12T01:00:00" }

def demoInputs : SupplierInputs :=
  { supplier_name := "Acme Ltd"
    supplier_country := "UK"
    document_paths := some ["invoice.pdf"]
    business_context := Option.none
    registration_number := some "00000000"
    owner_names := Option.none }

theorem evaluate_supplier_contract_witness :
    (∃ v, (toDict (evaluateSupplier demoFaultCalls (some "graph crashed") "t0" demoInputs)).lookup
        "final_decision" = some v) ∧
    (evaluateSupplier demoFaultCalls (some "graph crashed") "t0" demoInputs).workflow_status =
      "failed" ∧
    (evaluateSupplier demoFaultCalls (some "graph crashed") "t0" demoInputs).errors =
      ["Workflow: graph crashed"] := by
  refine ⟨(evaluate_supplier_contract demoFaultCalls (some "graph crashed") "t0" demoInputs).1
      "final_decision" (by simp [topLevelFields]), ?_, ?_⟩
  · exact ((evaluate_supplier_contract demoFaultCalls (some "graph crashed") "t0"
      demoInputs).2.1 "graph crashed" rfl).1
  · exact ((evaluate_supplier_contract demoFaultCalls (some "graph crashed") "t0"
      demoInputs).2.1 "graph crashed" rfl).2

/-- C2: in every run of the five-node graph, the returned
`workflow_status` is `failed` exactly when the Decision stage invocation
itself raised (so no `final_decision` was produced); when the Decision call
succeeds the status is `completed` no matter which upstream stages failed,
and every failed stage contributes its tagged entry to `errors`. -/
theorem chain_status_failed_iff_decision_failed (calls : StageCalls) (s0 : EvaluationState) :
    ((runChain calls s0).workflow_status = "failed" ↔ ∃ e, calls.decision = .error e) ∧
    (∀ d, calls.decision = Except.ok d → (runChain calls s0).workflow_status = "completed") ∧
    (∀ e, calls.planner = .error e → ("Planner: " ++ e) ∈ (runChain calls s0).errors) ∧
    (∀ e, s0.document_paths ≠ [] → calls.document s0.document_paths = .error e →
        ("Document Agent: " ++ e) ∈ (runChain calls s0).errors) ∧
    (∀ e, extractPolicyQuestions (plannedOf calls.planner) ≠ [] →
        calls.rag (extractPolicyQuestions (plannedOf calls.planner)) = .error e →
        ("RAG Agent: " ++ e) ∈ (runChain calls s0).errors) ∧
    (∀ e, calls.external = .error e → ("External Agent: " ++ e) ∈ (runChain calls s0).errors) ∧
    (∀ e, calls.decision = .error e → ("Decision Agent: " ++ e) ∈ (runChain calls s0).errors) := by
  refine ⟨?_, ?_, ?_, ?_, ?_, ?_, ?_⟩
  · rw [runChain_workflow_status]
    cases h : calls.decision <;> simp [decisionStatusOf]
  · intro d hd
    rw [runChain_workflow_status, hd]
    rfl
  · intro e he
    rw [runChain_errors, he]
    simp [exceptErrEntry]
  · intro e hpaths he
    rw [runChain_errors]
    simp [docErrEntry, hpaths, he, exceptErrEntry]
  · intro e hq he
    rw [runChain_errors]
    simp [ragErrEntry, hq, he, exceptErrEntry]
  · intro e he
    rw [runChain_errors, he]
    simp [exceptErrEntry]
  · intro e he
    rw [runChain_errors, he]
    simp [exceptErrEntry]

def demoUpstreamFailCalls : StageCalls :=
  { planner := .error "model unavailable"
    document := fun _ => .error "unreadable pdf"
    rag := fun _ => .ok (.list [])
    external := .error "network down"
    decision := .ok (.dict [("risk_level", .str "Medium")])
    completedAt := "2026-10-12T01:00:00" }

theorem chain_status_failed_iff_decision_failed_witness :
    (runChain demoUpstreamFailCalls (initialState "t0" demoInputs)).workflow_status =
      "completed" ∧
    ("Planner: model unavailable" ∈
      (runChain demoUpstreamFailCalls (initialState "t0" demoInputs)).errors) ∧
    ("Document Agent: unreadable pdf" ∈
      (runChain demoUpstreamFailCalls (initialState "t0" demoInputs)).errors) ∧
    ("External Agent: network down" ∈
      (runChain demoUpstreamFailCalls (initialState "t0" demoInputs)).errors) := by
  refine ⟨?_, ?_, ?_, ?_⟩
  · exact (chain_status_failed_iff_decision_failed demoUpstreamFailCalls
      (initialState "t0" demoInputs)).2.1 (.dict [("risk_level", .str "Medium")]) rfl
  · exact (chain_status_failed_iff_decision_failed demoUpstreamFailCalls
      (initialState "t0" demoInputs)).2.2.1 "model unavailable" rfl
  · exact (chain_status_failed_iff_decision_failed demoUpstreamFailCalls
      (initialState "t0" demoInputs)).2.2.2.1 "unreadable pdf" (by simp [initialState, demoInputs])
      rfl
  · exact (chain_status_failed_iff_decision_failed demoUpstreamFailCalls
      (initialState "t0" demoInputs)).2.2.2.2.2.1 "network down" rfl

/-- C7: when the Planner's reasoning call fails (raises, or returns output
`json.loads` cannot parse), `create_evaluation_plan` substitutes the fixed
generic fallback plan, whose `tasks` list has length exactly 7 and is in
particular non-empty; fed through the workflow, the run still proceeds to
the Decision stage, whose output becomes `final_decision` and whose success
marks the run `completed`. -/
theorem planner_fallback_seven_tasks (supplier_name supplier_country : String)
    (calls : StageCalls) (d : PyVal) (s0 : EvaluationState)
    (hp : calls.planner =
      Except.ok (createEvaluationPlan Option.none supplier_name supplier_country))
    (hd : calls.decision = Except.ok d) :
    createEvaluationPlan Option.none supplier_name supplier_country =
      fallbackPlan supplier_name supplier_country ∧
    (planTasks (createEvaluationPlan Option.none supplier_name supplier_country)).length = 7 ∧
    (runChain calls s0).evaluation_plan = fallbackPlan supplier_name supplier_country ∧
    planTasks (runChain calls s0).evaluation_plan ≠ [] ∧
    (runChain calls s0).final_decision = d ∧
    (runChain calls s0).workflow_status = "completed" := by
  have hplan : (runChain calls s0).evaluation_plan =
      fallbackPlan supplier_name supplier_country := by
    rw [runChain_evaluation_plan, hp]
    rfl
  refine ⟨rfl, rfl, hplan, ?_, ?_, ?_⟩
  · rw [hplan]
    intro h
    simp [fallbackPlan, planTasks, pyLookup] at h
  · rw [runChain_final_decision, hd]
    rfl
  · rw [runChain_workflow_status, hd]
    rfl

def demoPlannerFailCalls : StageCalls :=
  { planner := .ok (createEvaluationPlan Option.none "Acme Ltd" "UK")
    document := fun _ => .ok (.dict [])
    rag := fun _ => .ok (.list [])
    external := .ok (.dict [])
    decision := .ok (.dict [("risk_level", .str "Low")])
    completedAt := "2026-10-12T01:00:00" }

theorem planner_fallback_seven_tasks_witness :
    (planTasks (createEvaluationPlan Option.none "Acme Ltd" "UK")).length = 7 ∧
    (runChain demoPlannerFailCalls (initialState "t0" demoInputs)).workflow_status =
      "completed" := by
  refine ⟨?_, ?_⟩
  · exact (planner_fallback_seven_tasks "Acme Ltd" "UK" demoPlannerFailCalls
      (.dict [("risk_level", .str "Low")]) (initialState "t0" demoInputs) rfl rfl).2.1
  · exact (planner_fallback_seven_tasks "Acme Ltd" "UK" demoPlannerFailCalls
      (.dict [("risk_level", .str "Low")]) (initialState "t0" demoInputs) rfl rfl).2.2.2.2.2

/-- C8: with an empty `document_paths`, the document node writes the fixed
skip dict — `confidence_score` 0.0 and `missing_data`
`["No documents provided"]` — and does not invoke `analyze_documents` (and
hence neither the document reader nor its reasoning call): the instrumented
node's call flag is `false`, for every possible behaviour of the document
agent oracle. -/
theorem document_node_skips_on_empty_paths (c : List String → Except String PyVal)
    (s : EvaluationState) (h : s.document_paths = []) :
    runDocumentAgentT c s = ({ s with document_analysis := emptyDocsAnalysis }, false) ∧
    pyLookup (runDocumentAgent c s).document_analysis "confidence_score" =
      some (PyVal.rat 0) ∧
    pyLookup (runDocumentAgent c s).document_analysis "missing_data" =
      some (PyVal.list [PyVal.str "No documents provided"]) := by
  have hT : runDocumentAgentT c s = ({ s with document_analysis := emptyDocsAnalysis }, false) := by
    unfold runDocumentAgentT
    simp [h]
  refine ⟨hT, ?_, ?_⟩ <;> (simp only [runDocumentAgent, hT, emptyDocsAnalysis, pyLookup]; rfl)

def demoNoDocsState : EvaluationState := initialState "t0"
  { supplier_name := "Acme Ltd"
    supplier_country := "UK"
    document_paths := Option.none
    business_context := Option.none
    registration_number := Option.none
    owner_names := Option.none }

theorem document_node_skips_on_empty_paths_witness :
    runDocumentAgentT (fun _ => Except.error "reader crash") demoNoDocsState =
      ({ demoNoDocsState with document_analysis := emptyDocsAnalysis }, false) ∧
    pyLookup (runDocumentAgent (fun _ => Except.error "reader crash")
        demoNoDocsState).document_analysis "confidence_score" = some (PyVal.rat 0) := by
  refine ⟨?_, ?_⟩
  · exact (document_node_skips_on_empty_paths (fun _ => Except.error "reader crash")
      demoNoDocsState rfl).1
  · exact (document_node_skips_on_empty_paths (fun _ => Except.error "reader crash")
      demoNoDocsState rfl).2.1

theorem lookup_setAssoc_ne (fs : List (String × PyVal)) (k : String) (w : PyVal)
    (k' : String) (h : k ≠ k') : (setAssoc fs k w).lookup k' = fs.lookup k' := by
  induction fs with
  | nil =>
      have hf : (k' == k) = false := beq_eq_false_iff_ne.mpr (Ne.symm h)
      simp [setAssoc, List.lookup, hf]
  | cons kv fs ih =>
      obtain ⟨k₀, w₀⟩ := kv
      by_cases hk : k₀ = k
      · subst hk
        have hf : (k' == k₀) = false := beq_eq_false_iff_ne.mpr (Ne.symm h)
        simp [setAssoc, List.lookup, hf]
      · have hk2 : (k₀ == k) = false := beq_eq_false_iff_ne.mpr hk
        cases hkk : (k' == k₀) <;> simp [setAssoc, List.lookup, hk2, hkk, ih]

theorem pyLookup_dictSet_ne (v : PyVal) (k : String) (w : PyVal) (k' : String)
    (h : k ≠ k') : pyLookup (dictSet v k w) k' = pyLookup v k' := by
  cases v <;> simp [dictSet, pyLookup]
  exact lookup_setAssoc_ne _ _ _ _ h

/-- C3 counterexample: with `sanctions_check.company_match.risk_level`
equal to `blocked` in the upstream intelligence, a reasoning call that
returns `risk_level "Low"` makes `make_decision` return `"Low"` — the
claimed deterministic High override does not hold. -/
def blockedIntel : PyVal :=
  .dict [("company_registry", .dict [("company_status", .str "active")]),
         ("news_analysis", .dict []),
         ("sanctions_check",
           .dict [("company_match", .dict [("risk_level", .str "blocked")]),
                  ("owner_matches", .list [])]),
         ("watchlist_check", .dict []),
         ("risk_signals", .list [.str "CRITICAL: Company found on sanctions list"]),
         ("data_sources", .list [])]

def blockedDecisionInputs : DecisionInputs :=
  { supplier_name := "Blocked Corp"
    evaluation_plan := .dict [("tasks", .list []), ("reasoning", .str "n/a")]
    document_analysis := .dict []
    rag_answers := .dict []
    external_intelligence := blockedIntel
    business_context := Option.none }

def lowRiskLlmOutput : PyVal :=
  .dict [("risk_level", .str "Low"),
         ("confidence_score", .rat (9/10)),
         ("reasoning", .str "All signals positive per reasoning output"),
         ("positive_factors", .list [.str "Active registration"]),
         ("negative_factors", .list []),
         ("recommended_actions", .list [.str "Approve"]),
         ("decision_summary", .str "Approve"),
         ("evidence_trail", .dict [])]

/-- C3 is refuted at a concrete input: the upstream intelligence carries a
`blocked` company sanctions match, yet `make_decision` with a reasoning
call answering `risk_level "Low"` returns `"Low"`, not the claimed forced
`"High"`. -/
theorem decision_no_blocked_override :
    ((pyLookup blockedDecisionInputs.external_intelligence "sanctions_check").bind
        (fun sc => (pyLookup sc "company_match").bind
          (fun cm => pyLookup cm "risk_level")) = some (PyVal.str "blocked")) ∧
    pyLookup (makeDecision (fun _ => Except.ok lowRiskLlmOutput) blockedDecisionInputs
        "2026-10-12T00:00:00") "risk_level" = some (PyVal.str "Low") ∧
    PyVal.str "Low" ≠ PyVal.str "High" := by
  refine ⟨rfl, rfl, ?_⟩
  intro h
  injection h with h2
  exact absurd h2 (by decide)

/-- C3 amended: `make_decision` applies no deterministic override. On a
successful reasoning call it returns the reasoning output verbatim with
only the `evaluated_at` and `supplier_name` metadata keys added, so the
final `risk_level` is exactly the reasoning call's `risk_level` — whatever
the upstream evidence, including a `blocked` sanctions match, says. Only
when the reasoning call raises does it return the fixed safe default,
whose `risk_level` is `"High"`. -/
theorem make_decision_passthrough (llm : DecisionInputs → Except String PyVal)
    (inputs : DecisionInputs) (now : String) :
    (∀ d, llm inputs = Except.ok d →
        makeDecision llm inputs now =
          dictSet (dictSet d "evaluated_at" (.str now)) "supplier_name"
            (.str inputs.supplier_name) ∧
        pyLookup (makeDecision llm inputs now) "risk_level" = pyLookup d "risk_level") ∧
    (∀ e, llm inputs = Except.error e →
        makeDecision llm inputs now = decisionFallback e ∧
        pyLookup (makeDecision llm inputs now) "risk_level" = some (PyVal.str "High")) := by
  constructor
  · intro d hd
    have hm : makeDecision llm inputs now =
        dictSet (dictSet d "evaluated_at" (.str now)) "supplier_name"
          (.str inputs.supplier_name) := by
      unfold makeDecision
      rw [hd]
    refine ⟨hm, ?_⟩
    rw [hm, pyLookup_dictSet_ne _ _ _ _ (by decide), pyLookup_dictSet_ne _ _ _ _ (by decide)]
  · intro e he
    have hm : makeDecision llm inputs now = decisionFallback e := by
      unfold makeDecision
      rw [he]
    exact ⟨hm, by rw [hm]; rfl⟩

theorem make_decision_passthrough_witness :
    makeDecision (fun _ => Except.error "rate limited") blockedDecisionInputs "t1" =
      decisionFallback "rate limited" ∧
    pyLookup (makeDecision (fun _ => Except.error "rate limited") blockedDecisionInputs "t1")
      "risk_level" = some (PyVal.str "High") ∧
    pyLookup (makeDecision (fun _ => Except.ok lowRiskLlmOutput) blockedDecisionInputs "t1")
      "risk_level" = pyLookup lowRiskLlmOutput "risk_level" := by
  refine ⟨?_, ?_, ?_⟩
  · exact ((make_decision_passthrough (fun _ => Except.error "rate limited")
      blockedDecisionInputs "t1").2 "rate limited" rfl).1
  · exact ((make_decision_passthrough (fun _ => Except.error "rate limited")
      blockedDecisionInputs "t1").2 "rate limited" rfl).2
  · exact ((make_decision_passthrough (fun _ => Except.ok lowRiskLlmOutput)
      blockedDecisionInputs "t1").1 lowRiskLlmOutput rfl).2

theorem filter_ne_nil_iff {α : Type} (p : α → Bool) (l : List α) :
    l.filter p ≠ [] ↔ ∃ x ∈ l, p x := by
  constructor
  · intro h
    rcases List.exists_mem_of_ne_nil _ h with ⟨x, hx⟩
    rcases List.mem_filter.mp hx with ⟨h1, h2⟩
    exact ⟨x, h1, h2⟩
  · rintro ⟨x, hx, hp⟩ hnil
    have hmem : x ∈ l.filter p := List.mem_filter.mpr ⟨hx, hp⟩
    rw [hnil] at hmem
    exact absurd hmem (List.not_mem_nil x)

/-- C4: the sanctions name matcher classifies exactly as claimed — an exact
(case-insensitive, stripped) match on the loaded entity or individual list
gives `blocked`; with no exact match, a substring containment in either
direction on either list gives `warning`; with neither it gives `clear`. -/
theorem sanctions_risk_classification (name : String) (entities individuals : List String) :
    ((pyStrip (pyLower name) ∈ entities ∨ pyStrip (pyLower name) ∈ individuals) →
      (checkNameAgainstSanctions name entities individuals).risk_level = "blocked") ∧
    (¬(pyStrip (pyLower name) ∈ entities ∨ pyStrip (pyLower name) ∈ individuals) →
      ((∃ e ∈ entities,
          strContains e (pyStrip (pyLower name)) || strContains (pyStrip (pyLower name)) e) ∨
       (∃ i ∈ individuals,
          strContains i (pyStrip (pyLower name)) || strContains (pyStrip (pyLower name)) i) →
        (checkNameAgainstSanctions name entities individuals).risk_level = "warning")) ∧
    (¬(pyStrip (pyLower name) ∈ entities ∨ pyStrip (pyLower name) ∈ individuals) →
      ¬((∃ e ∈ entities,
          strContains e (pyStrip (pyLower name)) || strContains (pyStrip (pyLower name)) e) ∨
        (∃ i ∈ individuals,
          strContains i (pyStrip (pyLower name)) || strContains (pyStrip (pyLower name)) i)) →
      (checkNameAgainstSanctions name entities individuals).risk_level = "clear") := by
  refine ⟨?_, ?_, ?_⟩
  · intro h
    simp only [checkNameAgainstSanctions]
    rw [if_pos h]
  · intro hne hpart
    simp only [checkNameAgainstSanctions]
    rw [if_neg hne, if_pos]
    rcases hpart with ⟨e, he, hc⟩ | ⟨i, hi, hc⟩
    · exact Or.inl ((filter_ne_nil_iff _ _).mpr ⟨e, he, hc⟩)
    · exact Or.inr ((filter_ne_nil_iff _ _).mpr ⟨i, hi, hc⟩)
  · intro hne hpart
    simp only [checkNameAgainstSanctions]
    rw [if_neg hne, if_neg]
    rintro (hfil | hfil)
    · rcases (filter_ne_nil_iff _ _).mp hfil with ⟨e, he, hc⟩
      exact hpart (Or.inl ⟨e, he, hc⟩)
    · rcases (filter_ne_nil_iff _ _).mp hfil with ⟨i, hi, hc⟩
      exact hpart (Or.inr ⟨i, hi, hc⟩)

theorem sanctions_risk_classification_witness :
    (checkNameAgainstSanctions "TechTextiles Ltd" ["techtextiles ltd"] []).risk_level =
      "blocked" ∧
    (checkNameAgainstSanctions "TechTextiles Ltd UK Division" ["techtextiles ltd"]
      []).risk_level = "warning" ∧
    (checkNameAgainstSanctions "Acme Corp" ["techtextiles ltd"] []).risk_level = "clear" := by
  refine ⟨?_, ?_, ?_⟩
  · exact (sanctions_risk_classification "TechTextiles Ltd" ["techtextiles ltd"] []).1
      (by decide)
  · exact (sanctions_risk_classification "TechTextiles Ltd UK Division" ["techtextiles ltd"]
      []).2.1 (by decide) (by decide)
  · exact (sanctions_risk_classification "Acme Corp" ["techtextiles ltd"] []).2.2
      (by decide) (by decide)

/-- C5 counterexample: for articles scored [positive, positive, negative]
(counts 2/1/0) the aggregation returns `mostly_positive`, because the
positive-dominant branch (`positive > negative + neutral`, 2 > 1) fires
before the `mixed` branch — not `mixed` as claimed. -/
theorem overall_sentiment_ppn_not_mixed :
    determineOverallSentiment 2 1 0 = "mostly_positive" ∧
    determineOverallSentiment 2 1 0 ≠ "mixed" := by
  constructor
  · rfl
  · intro h
    rw [show determineOverallSentiment 2 1 0 = "mostly_positive" from rfl] at h
    exact absurd h (by decide)

/-- C5 amended: the aggregation follows the source's majority rule — all
counts zero gives `no_coverage`; negative dominant (negative > positive +
neutral) gives `mostly_negative`; positive dominant gives
`mostly_positive`; otherwise both sentiments present gives `mixed`, else
`neutral`. In particular [positive, positive, negative] (2/1/0) is
positive-dominant and yields `mostly_positive`; [positive, positive,
positive] yields `mostly_positive`; and no articles yields
`no_coverage`. -/
theorem overall_sentiment_majority_rule (positive negative neutral : ℕ) :
    (positive + negative + neutral = 0 →
      determineOverallSentiment positive negative neutral = "no_coverage") ∧
    (negative > positive + neutral →
      determineOverallSentiment positive negative neutral = "mostly_negative") ∧
    (positive > negative + neutral →
      determineOverallSentiment positive negative neutral = "mostly_positive") ∧
    (¬ negative > positive + neutral → ¬ positive > negative + neutral →
      0 < negative → 0 < positive →
      determineOverallSentiment positive negative neutral = "mixed") ∧
    (positive + negative + neutral ≠ 0 → negative = 0 ∨ positive = 0 →
      ¬ negative > positive + neutral → ¬ positive > negative + neutral →
      determineOverallSentiment positive negative neutral = "neutral") ∧
    determineOverallSentiment 2 1 0 = "mostly_positive" ∧
    determineOverallSentiment 3 0 0 = "mostly_positive" ∧
    determineOverallSentiment 0 0 0 = "no_coverage" := by
  refine ⟨?_, ?_, ?_, ?_, ?_, rfl, rfl, rfl⟩ <;>
    (intros
     simp only [determineOverallSentiment]
     split_ifs <;> first | rfl | omega)

theorem overall_sentiment_majority_rule_witness :
    determineOverallSentiment 1 1 0 = "mixed" ∧
    determineOverallSentiment 0 3 1 = "mostly_negative" ∧
    determineOverallSentiment 0 0 2 = "neutral" := by
  refine ⟨?_, ?_, ?_⟩
  · exact (overall_sentiment_majority_rule 1 1 0).2.2.2.1 (by decide) (by decide)
      (by decide) (by decide)
  · exact (overall_sentiment_majority_rule 0 3 1).2.1 (by decide)
  · exact (overall_sentiment_majority_rule 0 0 2).2.2.2.2.1 (by decide) (by decide)
      (by decide) (by decide)

/-- A concrete article whose description scores negative under
`analyze_sentiment` (it contains the negative keywords fraud, lawsuit,
investigation and violation, and no positive keyword). -/
def fraudArticle : Article :=
  { title := "Fraud investigation launched against TechTextiles"
    description := "A fraud investigation and lawsuit over an alleged violation" }

/-- C6 is contradicted by the code at a concrete input: the sentiment
scorer classifies the fraud article `negative` (with the claimed
margin-scaled confidence), yet the External-stage loop — which compares
the returned dict itself against the strings `"positive"`/`"negative"` —
tallies the article as neutral (summary 0/0/1) and appends no
`Negative news:` risk signal. -/
theorem news_sentiment_tally_drops_negative_articles :
    (analyzeSentiment fraudArticle.description).sentiment = "negative" ∧
    (analyzeSentiment fraudArticle.description).confidence = 95/100 ∧
    newsTally [fraudArticle] = ((0, 0, 1), []) := by
  refine ⟨rfl, ?_, ?_⟩
  · show min (6/10 + ((4 : ℚ) - 0) * (1/10)) (95/100) = 95/100
    norm_num
  · show ((0, 0, 0 + 1), ([] : List String)) = ((0, 0, 1), [])
    norm_num

/-- A UK Companies House record for a live company: the registry reports
`company_status = "active"`. -/
def activeCompany : CHCompany :=
  { company_name := "TECHTEXTILES LIMITED"
    company_number := some "12345678"
    company_status := "active"
    date_of_creation := "2010-03-15"
    company_type := "ltd"
    registered_address := []
    accounts_next_due := "2026-01-01"
    accounts_overdue := false
    sic_codes := [] }

/-- C9 is contradicted by the code at a concrete input: on a successful UK
lookup of an Active company the registry result carries
`company_status = "active"` and no `status` key at all, so the agent's
`registry_result.get("status") != "Active"` test is vacuously true and the
risk signal `Company status: Unknown` is appended even though the company
is Active. -/
theorem registry_active_company_still_flagged :
    (checkUkCompaniesHouse "12345678" activeCompany).lookup "company_status" =
      some (PyVal.str "active") ∧
    (checkUkCompaniesHouse "12345678" activeCompany).lookup "status" = Option.none ∧
    registryStepSignals "UK" (some "12345678")
        (checkUkCompaniesHouse "12345678" activeCompany) [] =
      ["Company status: Unknown"] := by
  exact ⟨rfl, rfl, rfl⟩

/-- C10: for a non-empty retrieval result and a successful reasoning call,
the policy answer's confidence is exactly `min(avg_score * 1.2, 1.0)`,
where `avg_score` is the mean similarity score of the retrieved passages;
it does not depend on the reasoning call's answer text at all (the formula
holds for every returned text). -/
theorem rag_answer_confidence (answer_text question : String) (results : List RagChunk)
    (h : results ≠ []) :
    (generateAnswer (Except.ok answer_text) question results).confidence =
      min (((results.map RagChunk.score).sum / (results.length : ℚ)) * (12/10)) 1 ∧
    (generateAnswer (Except.ok answer_text) question results).confidence =
      (generateAnswer (Except.ok "") question results).confidence := by
  constructor
  · simp [generateAnswer, h]
  · simp [generateAnswer]

def demoChunks : List RagChunk :=
  [{ text := "Exporters of textiles require an OGEL."
     document_name := "uk_export_control_list_2025.pdf"
     page := "12"
     score := 1/2 }]

theorem rag_answer_confidence_witness :
    (generateAnswer (Except.ok "An OGEL is required [Source 1].") "What export licenses?"
        demoChunks).confidence =
      min (((demoChunks.map RagChunk.score).sum / (demoChunks.length : ℚ)) * (12/10)) 1 :=
  (rag_answer_confidence "An OGEL is required [Source 1]." "What export licenses?"
    demoChunks (by simp [demoChunks])).1

end SupplierRisk
